import Mathlib

/-!
Verification of the terrain data engine of the VRTerrain repository.

The definitions below are shallow embeddings of the TypeScript source.
JavaScript numbers are modelled as exact rationals (`ℚ`), typed arrays as
total functions or lists, asynchronous tile fetches as explicit per-tile
outcomes, and fallible operations as `Option`.
-/

/-! ## Elevation decoder (src/utils/terrain.ts lines 77-86)

`const meters = (r * 256 + g + b / 256) - 32768;` applied to the byte
triple `(r, g, b)` of a composite pixel. -/

/-- Terrarium elevation decode: `(r * 256 + g + b / 256) - 32768`. -/
def decode (r g b : ℕ) : ℚ :=
  ((r : ℚ) * 256 + (g : ℚ) + (b : ℚ) / 256) - 32768

/-- The 24-bit packed value `r * 65536 + g * 256 + b` of a byte triple. -/
def packed (r g b : ℕ) : ℕ :=
  r * 65536 + g * 256 + b

/-! ## Optimal zoom (src/unnamed/part_003 lines 16-37) -/

/-- Geographic bounds `{latMin, lonMin, latMax, lonMax}` in degrees. -/
structure Bounds where
  latMin : ℚ
  lonMin : ℚ
  latMax : ℚ
  lonMax : ℚ

/-- Embedding of `calculateOptimalZoom(bounds, targetResolution, maxZoom)`.
`Math.floor(Math.log2 q)` for a positive rational `q` is embedded as
`Int.log 2 q`, the integer `k` with `2^k ≤ q < 2^(k+1)`. -/
def calculateOptimalZoom (bounds : Bounds) (targetResolution : ℚ) (maxZoom : ℤ) : ℤ :=
  let latDiff := bounds.latMax - bounds.latMin
  let lonDiff := bounds.lonMax - bounds.lonMin
  let maxDiff := max latDiff lonDiff
  if maxDiff = 0 then maxZoom
  else max 8 (min (Int.log 2 (targetResolution * 360 / (256 * maxDiff))) maxZoom)

/-- The `TERRAIN_CONFIG.BOUNDS` value from src/config.ts (the active, uncommented block). -/
def configBounds : Bounds :=
  { latMin := 16828773 / 1000000
    lonMin := 101676558 / 1000000
    latMax := 16955233 / 1000000
    lonMax := 101843331 / 1000000 }

/-- The `TERRAIN_CONFIG.DEM_MAX_LEVEL` value from src/config.ts. -/
def DEM_MAX_LEVEL : ℤ := 15

/-- The zoom fallback at the top of `fetchTerrainTile` (src/unnamed/part_003
line 41): `const targetZoom = zoom || calculateOptimalZoom(BOUNDS);`.
JavaScript `||` treats both `undefined` (an omitted argument, `none` here)
and `0` as falsy, so both fall back to the computed optimal zoom. -/
def targetZoomArg (zoom : Option ℤ) : ℤ :=
  match zoom with
  | none => calculateOptimalZoom configBounds 1024 DEM_MAX_LEVEL
  | some z =>
      if z = 0 then calculateOptimalZoom configBounds 1024 DEM_MAX_LEVEL else z

/-- Bounds with zero lat/lon span, exercising the degenerate branch of
`calculateOptimalZoom`. -/
def degenerateBounds : Bounds :=
  { latMin := 3
    lonMin := 7
    latMax := 3
    lonMax := 7 }

/-! ## Marching squares (src/components/Contours.tsx lines 43-125) -/

/-- The epsilon of the interpolation guard, `0.0001` in the source. -/
def interpEps : ℚ := 1 / 10000

/-- The `interpolate` helper from `extractContourLines`: midpoint fallback when
`|v2 - v1| < 0.0001`, otherwise linear interpolation of the crossing with
`t = (target - v1) / (v2 - v1)`. -/
def interpolate (x1 y1 v1 x2 y2 v2 target : ℚ) : ℚ × ℚ :=
  if |v2 - v1| < interpEps then ((x1 + x2) / 2, (y1 + y2) / 2)
  else
    let t := (target - v1) / (v2 - v1)
    (x1 + t * (x2 - x1), y1 + t * (y2 - y1))

/-- Corner classification `v >= targetHeight` (lines 75-78). -/
def above (e v : ℚ) : Bool := decide (e ≤ v)

/-- The segments one 2x2 cell contributes (lines 65-121).  Corner values are
`v00` bottom-left, `v10` bottom-right, `v11` top-right, `v01` top-left;
uniform cells (case 0 / case 15) are skipped; crossing edges are collected in
the source's insertion order bottom, right, top, left; exactly two crossings
yield one segment, four crossings (the saddle) yield the two segments chosen
by comparing the corner average with the level. -/
def cellSegments (x y v00 v10 v11 v01 e : ℚ) : List ((ℚ × ℚ) × (ℚ × ℚ)) :=
  if (above e v00 && above e v10 && above e v11 && above e v01) ||
     (!above e v00 && !above e v10 && !above e v11 && !above e v01) then []
  else
    let eb := if above e v00 != above e v10 then
        some (interpolate x y v00 (x + 1) y v10 e) else none
    let er := if above e v10 != above e v11 then
        some (interpolate (x + 1) y v10 (x + 1) (y + 1) v11 e) else none
    let et := if above e v11 != above e v01 then
        some (interpolate (x + 1) (y + 1) v11 x (y + 1) v01 e) else none
    let el := if above e v01 != above e v00 then
        some (interpolate x (y + 1) v01 x y v00 e) else none
    match eb, er, et, el with
    | some pb, some pr, some pt, some pl =>
        if above e ((v00 + v10 + v11 + v01) / 4) then [(pb, pl), (pt, pr)]
        else [(pb, pr), (pt, pl)]
    | some pb, some pr, none, none => [(pb, pr)]
    | some pb, none, some pt, none => [(pb, pt)]
    | some pb, none, none, some pl => [(pb, pl)]
    | none, some pr, some pt, none => [(pr, pt)]
    | none, some pr, none, some pl => [(pr, pl)]
    | none, none, some pt, some pl => [(pt, pl)]
    | _, _, _, _ => []

/-- Embedding of `extractContourLines(data, width, height, targetHeight)`: scan every 2x2
cell of the row-major grid and concatenate the per-cell segments. -/
def extractContourLines (data : ℕ → ℚ) (width height : ℕ) (target : ℚ) :
    List ((ℚ × ℚ) × (ℚ × ℚ)) :=
  (List.range (height - 1)).flatMap fun y =>
    (List.range (width - 1)).flatMap fun x =>
      cellSegments (x : ℚ) (y : ℚ)
        (data (y * width + x)) (data (y * width + (x + 1)))
        (data ((y + 1) * width + (x + 1))) (data ((y + 1) * width + x)) target

/-! ## Tile compositing (src/utils/terrain.ts lines 17-95) -/

/-- An RGB pixel of the composite canvas. -/
structure Pixel where
  r : ℕ
  g : ℕ
  b : ℕ

/-- A decoded elevation grid
`{width, height, data, minHeight, maxHeight}`. -/
structure ElevationGrid where
  width : ℕ
  height : ℕ
  data : ℕ → ℚ
  minHeight : ℚ
  maxHeight : ℚ

/-- Per-tile outcome of one composite operation: `none` when that tile's
`img.onerror` fired (the promise still resolves, line 55-58), `some img`
when `img.onload` drew the tile into its slot. -/
def TileOutcome : Type := Option (ℕ → ℕ → Pixel)

/-- The composite canvas after all tile promises settled (lines 48-67):
tile `(tx, ty)` is drawn at `(tx*256, ty*256)`; a failed slot keeps the
canvas's initial zero-filled (blank) pixels. -/
def compositePixel (outcome : ℕ → ℕ → TileOutcome) (px py : ℕ) : Pixel :=
  match outcome (px / 256) (py / 256) with
  | some img => img (px % 256) (py % 256)
  | none => { r := 0, g := 0, b := 0 }

/-- Elevation at flat index `i` of a `w`-pixel-wide composite (the decode
loop, lines 77-86): the flat index maps to pixel `(i % w, i / w)`. -/
def compositeElevation (outcome : ℕ → ℕ → TileOutcome) (w i : ℕ) : ℚ :=
  let p := compositePixel outcome (i % w) (i / w)
  decode p.r p.g p.b

/-- The min/max accumulation of lines 74-86, seeded with the first value
(the source seeds with `±Infinity`, which the first pixel always replaces;
every composite has at least one pixel). -/
def gridMinMax (n : ℕ) (d : ℕ → ℚ) : ℚ × ℚ :=
  (List.range n).foldl (fun mm i => (min mm.1 (d i), max mm.2 (d i))) (d 0, d 0)

/-- Embedding of `fetchTerrainTile` of src/utils/terrain.ts.  The covering tile range and
the canvas context are parameters (`tilesX`, `tilesY`, `ctxOk`): the
Web-Mercator index math deriving the range is transcendental and plays no
role in the compositing contract.  The only throw in the source
(`Canvas context not available`) is the `none` result; every combination of
per-tile outcomes yields a grid. -/
def fetchTerrainTileModel (ctxOk : Bool) (tilesX tilesY : ℕ)
    (outcome : ℕ → ℕ → TileOutcome) : Option ElevationGrid :=
  if ctxOk then
    some { width := tilesX * 256
           height := tilesY * 256
           data := compositeElevation outcome (tilesX * 256)
           minHeight := (gridMinMax (tilesX * 256 * (tilesY * 256))
             (compositeElevation outcome (tilesX * 256))).1
           maxHeight := (gridMinMax (tilesX * 256 * (tilesY * 256))
             (compositeElevation outcome (tilesX * 256))).2 }
  else none

/-! ## LOD hysteresis (src/components/Terrain.tsx lines 164-241) -/

/-- The LOD controller state: the active DEM zoom (`currentLodZoom`) and the
transition flag (`isLodTransitioning`). -/
structure LODState where
  zoom : ℤ
  transitioning : Bool
  deriving DecidableEq

/-- The distance-to-target-zoom step function of lines 193-203, taking the
camera distance already converted to meters, clamped to `DEM_MAX_LEVEL`. -/
def targetZoomOfDist (distMeters : ℚ) : ℤ :=
  let t : ℤ :=
    if distMeters < 1000 then 16
    else if distMeters < 2000 then 15
    else if distMeters < 5000 then 14
    else if distMeters < 10000 then 13
    else if distMeters < 20000 then 12
    else 11
  min t DEM_MAX_LEVEL

/-- One LOD poll (lines 205-241): the target zoom is accepted only when it
differs from the active zoom by at least 2 levels; otherwise the whole state
is untouched. -/
def lodStep (s : LODState) (distMeters : ℚ) : LODState :=
  let targetZ := targetZoomOfDist distMeters
  if 2 ≤ |targetZ - s.zoom| then { zoom := targetZ, transitioning := true }
  else s

/-- A stable LOD state used to exercise the hysteresis. -/
def lodS : LODState := { zoom := 15, transitioning := false }

/-! ## Visible height range (src/components/Terrain.tsx lines 584-614) -/

/-- The footprint shape. -/
inductive Shape where
  | rectangle
  | ellipse

/-- Whether flat grid index `i` lies inside the inscribed ellipse:
`nx^2 + ny^2 ≤ 1` for the normalized coordinates of lines 598-605.  When
`width ≤ 1` or `height ≤ 1` the source divides by zero, producing `NaN`
coordinates, and every comparison against `NaN` is false, so no sample
qualifies; the two explicit size guards encode exactly that. -/
def inEllipse (width height i : ℕ) : Bool :=
  decide (2 ≤ width) && decide (2 ≤ height) &&
    decide ((((i % width : ℕ) : ℚ) / ((width : ℚ) - 1) * 2 - 1) ^ 2 +
            (((i / width : ℕ) : ℚ) / ((height : ℚ) - 1) * 2 - 1) ^ 2 ≤ 1)

/-- One step of the ellipse min/max scan (lines 597-611).  The source's
`±Infinity` seeds together with the `hasVisible` flag are represented by an
`Option` accumulator that is `none` until the first visible sample. -/
def scanStep (width height : ℕ) (d : ℕ → ℚ) (acc : Option (ℚ × ℚ)) (i : ℕ) :
    Option (ℚ × ℚ) :=
  if inEllipse width height i then
    match acc with
    | none => some (d i, d i)
    | some mm => some (min mm.1 (d i), max mm.2 (d i))
  else acc

/-- The full scan over the `width * height` samples of the grid. -/
def scanVisible (g : ElevationGrid) : Option (ℚ × ℚ) :=
  (List.range (g.width * g.height)).foldl (scanStep g.width g.height g.data) none

/-- Embedding of `visibleRange` (lines 584-614): the full `minHeight`/`maxHeight` for the
rectangle shape; the ellipse-restricted scan otherwise, falling back to the
full range when no sample is inside the ellipse. -/
def visibleRange (g : ElevationGrid) (shape : Shape) : ℚ × ℚ :=
  match shape with
  | .rectangle => (g.minHeight, g.maxHeight)
  | .ellipse =>
      match scanVisible g with
      | some mm => mm
      | none => (g.minHeight, g.maxHeight)

/-- Predicate stating that `mn` and `mx` are the minimum and maximum of the grid values restricted
to the sample indices inside the ellipse: they bound every visible value and
are both attained by one. -/
def IsVisibleMinMax (g : ElevationGrid) (mn mx : ℚ) : Prop :=
  (∀ i, i < g.width * g.height → inEllipse g.width g.height i = true →
    mn ≤ g.data i ∧ g.data i ≤ mx) ∧
  (∃ i, i < g.width * g.height ∧ inEllipse g.width g.height i = true ∧
    g.data i = mn) ∧
  (∃ i, i < g.width * g.height ∧ inEllipse g.width g.height i = true ∧
    g.data i = mx)

/-- A 3x3 grid whose values are the flat index; its ellipse-visible indices
are 1, 3, 4, 5, 7. -/
def g3 : ElevationGrid :=
  { width := 3
    height := 3
    data := fun i => (i : ℚ)
    minHeight := 0
    maxHeight := 8 }

/-- A 1x1 grid: no sample lies inside the ellipse (the source's normalized
coordinates are NaN), so the scan must fall back to the full range. -/
def g1 : ElevationGrid :=
  { width := 1
    height := 1
    data := fun _ => 5
    minHeight := 5
    maxHeight := 5 }

/-! ## Top-surface mesh heights (src/components/Terrain.tsx lines 622-690) -/

/-- JavaScript `v || fallback` on an in-range numeric read: `0` is falsy and
is replaced by the fallback. -/
def jsOr (v fallback : ℚ) : ℚ :=
  if v = 0 then fallback else v

/-- The `MAX_GEOMETRY_RES` cap (line 632). -/
def MAX_GEOMETRY_RES : ℕ := 128

/-- The DEM value feeding flat geometry index `i` (lines 643-663):
nearest-index downsampling `demX = floor(gx / (actualWidth-1) * (width-1))`
when the DEM exceeds the 128x128 cap, the raw data otherwise, with the
source's `data[demIdx] || minHeight` falsy fallback. -/
def sampledData (g : ElevationGrid) (i : ℕ) : ℚ :=
  let aw := min g.width MAX_GEOMETRY_RES
  let ah := min g.height MAX_GEOMETRY_RES
  if aw < g.width ∨ ah < g.height then
    let gx := i % aw
    let gy := i / aw
    let demX := (((gx : ℚ) / ((aw : ℚ) - 1)) * ((g.width : ℚ) - 1)).floor.toNat
    let demY := (((gy : ℚ) / ((ah : ℚ) - 1)) * ((g.height : ℚ) - 1)).floor.toNat
    jsOr (g.data (demY * g.width + demX)) g.minHeight
  else g.data i

/-- Vertex z at flat index `i` of the top geometry (lines 676-688):
`const rawHeight = sampledData[i] || minHeight;` then
`(rawHeight - minHeight) * (exaggeration / 100)`. -/
def vertexHeight (g : ElevationGrid) (exaggeration : ℚ) (i : ℕ) : ℚ :=
  (jsOr (sampledData g i) g.minHeight - g.minHeight) * (exaggeration / 100)

/-- Vertex count of `THREE.PlaneGeometry(100, 100, actualWidth-1,
actualHeight-1)` (line 636). -/
def vertexCount (g : ElevationGrid) : ℕ :=
  min g.width MAX_GEOMETRY_RES * min g.height MAX_GEOMETRY_RES

/-- The triangle list of the plane geometry (the three.js `PlaneGeometry`
index buffer: per cell the triangles `(a, b, d)` and `(b, c, d)`).  It
depends only on the grid dimensions, never on the values or the
exaggeration. -/
def topIndices (g : ElevationGrid) : List (ℕ × ℕ × ℕ) :=
  let aw := min g.width MAX_GEOMETRY_RES
  let ah := min g.height MAX_GEOMETRY_RES
  (List.range (ah - 1)).flatMap fun iy =>
    (List.range (aw - 1)).flatMap fun ix =>
      [(iy * aw + ix, (iy + 1) * aw + ix, iy * aw + (ix + 1)),
       ((iy + 1) * aw + ix, (iy + 1) * aw + (ix + 1), iy * aw + (ix + 1))]

/-- A 2x2 grid exposing the `data[i] || minHeight` falsiness slip: the
legitimate elevation 0 at index 2 is treated as missing and replaced by
`minHeight = -5`. -/
def gBug : ElevationGrid :=
  { width := 2
    height := 2
    data := fun i => [(-5 : ℚ), -3, 0, 2].getD i 0
    minHeight := -5
    maxHeight := 2 }

/-! ## Ellipse skirt bilinear sampler (src/components/Terrain.tsx lines 830-858) -/

/-- The clamp `c(v, max) = Math.max(0, Math.min(max, v))` of line 844. -/
def clampIdx (v maxv : ℤ) : ℤ := max 0 (min maxv v)

/-- The flat lookup index
`idx(cX, cY) = c(cY, height-1) * width + c(cX, width-1)` of line 845. -/
def skirtIdx (width height : ℕ) (cX cY : ℤ) : ℤ :=
  clampIdx cY ((height : ℤ) - 1) * (width : ℤ) + clampIdx cX ((width : ℤ) - 1)

/-- Grid x coordinate `gx = ((x + 50) / 100) * (width - 1)` (line 834). -/
def skirtGX (width : ℕ) (x : ℚ) : ℚ := ((x + 50) / 100) * ((width : ℚ) - 1)

/-- Grid y coordinate `gy = ((50 - y) / 100) * (height - 1)` (line 836). -/
def skirtGY (height : ℕ) (y : ℚ) : ℚ := ((50 - y) / 100) * ((height : ℚ) - 1)

/-- The bilinear height sampler `getHeight` (lines 830-858).  All four corner
reads go through `skirtIdx`; `|| minHeight` is the JS falsy fallback applied
to each corner read in the source. -/
def getHeight (g : ElevationGrid) (currentMultiplier x y : ℚ) : ℚ :=
  let gx := skirtGX g.width x
  let gy := skirtGY g.height y
  let ix := gx.floor
  let iy := gy.floor
  let fx := gx - ix
  let fy := gy - iy
  let read := fun cX cY =>
    jsOr (g.data (skirtIdx g.width g.height cX cY).toNat) g.minHeight
  let h00 := read ix iy
  let h10 := read (ix + 1) iy
  let h01 := read ix (iy + 1)
  let h11 := read (ix + 1) (iy + 1)
  let hTop := h00 * (1 - fx) + h10 * fx
  let hBot := h01 * (1 - fx) + h11 * fx
  let h := hTop * (1 - fy) + hBot * fy
  (h - g.minHeight) * currentMultiplier

/-! ## Theorems -/

/-- C1 counterexample: the claim states `decode(255,255,255) = 65535.996...`,
but the decoder returns `32767.99609375 = 8388607/256`, which is below 65535:
the claimed value forgot the `- 32768` offset. -/
theorem C1_counterexample :
    decode 255 255 255 = 8388607 / 256 ∧ ¬ (65535 ≤ decode 255 255 255) := by
  constructor
  · norm_num [decode]
  · norm_num [decode]

/-- C1 (amended): for every byte triple the decoder returns exactly
`r*256 + g + b/256 - 32768`, which equals `packed/256 - 32768` for the 24-bit
packed value `r*65536 + g*256 + b` (hence is linear in it), is strictly
monotonic in the packed value, and satisfies `decode(0,0,0) = -32768` and
`decode(255,255,255) = 32767.996... = 8388607/256`. -/
theorem C1_decode_linear_monotonic :
    (∀ r g b : ℕ, decode r g b = ((packed r g b : ℚ)) / 256 - 32768) ∧
    (∀ r g b u v w : ℕ,
      packed r g b < packed u v w → decode r g b < decode u v w) ∧
    decode 0 0 0 = -32768 ∧
    decode 255 255 255 = 8388607 / 256 := by
  have hlin : ∀ r g b : ℕ, decode r g b = ((packed r g b : ℚ)) / 256 - 32768 := by
    intro r g b
    simp only [decode, packed]
    push_cast
    ring
  refine ⟨hlin, ?_, by norm_num [decode], by norm_num [decode]⟩
  intro r g b u v w h
  rw [hlin r g b, hlin u v w]
  have hq : ((packed r g b : ℚ)) < ((packed u v w : ℚ)) := by exact_mod_cast h
  linarith

/-- C1 witness: strict monotonicity applied at the packed values 0 and 1. -/
theorem C1_witness :
    packed 0 0 0 < packed 0 0 1 ∧ decode 0 0 0 < decode 0 0 1 :=
  ⟨by decide, C1_decode_linear_monotonic.2.1 0 0 0 0 0 1 (by decide)⟩

/-- C2: when the larger lat/lon span is zero, `calculateOptimalZoom` returns
`maxZoom` directly; when it is positive (and the target resolution is
positive), the result is `floor(log2(targetResolution*360/(256*maxSpan)))`
clamped to `[8, maxZoom]` — the exponent `k` below is exactly that floor, as
certified by `2^k ≤ q < 2^(k+1)`. -/
theorem C2_optimal_zoom (b : Bounds) (tr : ℚ) (mz : ℤ) :
    (max (b.latMax - b.latMin) (b.lonMax - b.lonMin) = 0 →
      calculateOptimalZoom b tr mz = mz) ∧
    (0 < max (b.latMax - b.latMin) (b.lonMax - b.lonMin) → 0 < tr →
      ∃ k : ℤ,
        (2 : ℚ) ^ k ≤
          tr * 360 / (256 * max (b.latMax - b.latMin) (b.lonMax - b.lonMin)) ∧
        tr * 360 / (256 * max (b.latMax - b.latMin) (b.lonMax - b.lonMin)) <
          (2 : ℚ) ^ (k + 1) ∧
        calculateOptimalZoom b tr mz = max 8 (min k mz)) := by
  constructor
  · intro h
    simp only [calculateOptimalZoom, h, if_pos]
  · intro h htr
    have hq : 0 < tr * 360 / (256 * max (b.latMax - b.latMin) (b.lonMax - b.lonMin)) := by
      apply div_pos (by linarith) (by linarith)
    refine ⟨Int.log 2 (tr * 360 / (256 * max (b.latMax - b.latMin) (b.lonMax - b.lonMin))),
      Int.zpow_log_le_self (by norm_num) hq,
      Int.lt_zpow_succ_log_self (by norm_num) _, ?_⟩
    simp only [calculateOptimalZoom]
    rw [if_neg (ne_of_gt h)]

/-- C2 witness: the degenerate branch at coincident bounds, and the main
branch at the configured bounds with targetResolution 1024 and maxZoom 15. -/
theorem C2_witness :
    calculateOptimalZoom degenerateBounds 1024 15 = 15 ∧
    (∃ k : ℤ,
      (2 : ℚ) ^ k ≤
        1024 * 360 / (256 * max (configBounds.latMax - configBounds.latMin)
          (configBounds.lonMax - configBounds.lonMin)) ∧
      1024 * 360 / (256 * max (configBounds.latMax - configBounds.latMin)
          (configBounds.lonMax - configBounds.lonMin)) <
        (2 : ℚ) ^ (k + 1) ∧
      calculateOptimalZoom configBounds 1024 15 = max 8 (min k 15)) :=
  ⟨(C2_optimal_zoom degenerateBounds 1024 15).1 (by norm_num [degenerateBounds]),
   (C2_optimal_zoom configBounds 1024 15).2
     (lt_max_iff.mpr (Or.inl (by norm_num [configBounds]))) (by norm_num)⟩

/-- C8: calling `fetchTerrainTile` with zoom 0 (or with the argument omitted)
does not fetch at zoom 0: the JavaScript truthiness fallback replaces it by
the computed optimal zoom for the configured bounds, which is at least 8;
any nonzero zoom argument is kept unchanged. -/
theorem C8_zoom_zero_falsy :
    targetZoomArg (some 0) = calculateOptimalZoom configBounds 1024 DEM_MAX_LEVEL ∧
    targetZoomArg none = calculateOptimalZoom configBounds 1024 DEM_MAX_LEVEL ∧
    8 ≤ targetZoomArg (some 0) ∧
    ∀ z : ℤ, z ≠ 0 → targetZoomArg (some z) = z := by
  have hne : max (configBounds.latMax - configBounds.latMin)
      (configBounds.lonMax - configBounds.lonMin) ≠ 0 := by
    norm_num [configBounds]
  have h0 : targetZoomArg (some 0) = calculateOptimalZoom configBounds 1024 DEM_MAX_LEVEL := by
    simp [targetZoomArg]
  refine ⟨h0, by simp [targetZoomArg], ?_, ?_⟩
  · rw [h0]
    simp only [calculateOptimalZoom]
    rw [if_neg hne]
    exact le_max_left _ _
  · intro z hz
    simp only [targetZoomArg, if_neg hz]

/-- C8 witness: a nonzero zoom argument (5) is kept unchanged. -/
theorem C8_witness : targetZoomArg (some 5) = 5 :=
  C8_zoom_zero_falsy.2.2.2 5 (by decide)

/-- C3: marching squares over a 2x2 cell at level `e`: a cell whose four
corners are all above or all below `e` contributes no segments; every cell
contributes at most 2 segments; a bisected edge's crossing point is the
linear interpolation with `t = (e - v1)/(v2 - v1)`, falling back to the edge
midpoint when `|v2 - v1| < 0.0001`; and in the saddle case (all four edges
crossing) the diagonal pairing is chosen by comparing `e` with the average
of the four corners. -/
theorem C3_marching_squares_cell (x y v00 v10 v11 v01 e : ℚ) :
    ((e ≤ v00 ∧ e ≤ v10 ∧ e ≤ v11 ∧ e ≤ v01) ∨
     (v00 < e ∧ v10 < e ∧ v11 < e ∧ v01 < e) →
      cellSegments x y v00 v10 v11 v01 e = []) ∧
    (cellSegments x y v00 v10 v11 v01 e).length ≤ 2 ∧
    (∀ x1 y1 v1 x2 y2 v2 : ℚ, |v2 - v1| < interpEps →
      interpolate x1 y1 v1 x2 y2 v2 e = ((x1 + x2) / 2, (y1 + y2) / 2)) ∧
    (∀ x1 y1 v1 x2 y2 v2 : ℚ, interpEps ≤ |v2 - v1| →
      interpolate x1 y1 v1 x2 y2 v2 e =
        (x1 + (e - v1) / (v2 - v1) * (x2 - x1),
         y1 + (e - v1) / (v2 - v1) * (y2 - y1))) ∧
    (above e v00 ≠ above e v10 → above e v10 ≠ above e v11 →
     above e v11 ≠ above e v01 → above e v01 ≠ above e v00 →
      cellSegments x y v00 v10 v11 v01 e =
        if e ≤ (v00 + v10 + v11 + v01) / 4 then
          [(interpolate x y v00 (x + 1) y v10 e,
            interpolate x (y + 1) v01 x y v00 e),
           (interpolate (x + 1) (y + 1) v11 x (y + 1) v01 e,
            interpolate (x + 1) y v10 (x + 1) (y + 1) v11 e)]
        else
          [(interpolate x y v00 (x + 1) y v10 e,
            interpolate (x + 1) y v10 (x + 1) (y + 1) v11 e),
           (interpolate (x + 1) (y + 1) v11 x (y + 1) v01 e,
            interpolate x (y + 1) v01 x y v00 e)]) := by
  refine ⟨?_, ?_, ?_, ?_, ?_⟩
  · rintro (⟨h1, h2, h3, h4⟩ | ⟨h1, h2, h3, h4⟩)
    · simp [cellSegments, above, h1, h2, h3, h4]
    · simp [cellSegments, above, h1.not_le, h2.not_le, h3.not_le, h4.not_le]
  · cases hb00 : above e v00 <;> cases hb10 : above e v10 <;>
      cases hb11 : above e v11 <;> cases hb01 : above e v01 <;>
      cases hbavg : above e ((v00 + v10 + v11 + v01) / 4) <;>
      simp [cellSegments, hb00, hb10, hb11, hb01, hbavg]
  · intro x1 y1 v1 x2 y2 v2 h
    unfold interpolate
    rw [if_pos h]
  · intro x1 y1 v1 x2 y2 v2 h
    unfold interpolate
    rw [if_neg (not_lt.mpr h)]
  · intro h1 h2 h3 h4
    simp only [above, ne_eq, decide_eq_decide] at h1 h2 h3 h4
    by_cases hp00 : e ≤ v00
    · have hp10 : ¬ e ≤ v10 := by tauto
      have hp11 : e ≤ v11 := by tauto
      have hp01 : ¬ e ≤ v01 := by tauto
      simp [cellSegments, above, hp00, hp10, hp11, hp01,
        not_le.mp hp10, not_lt.mpr hp00, not_le.mp hp01, not_lt.mpr hp11]
    · have hp10 : e ≤ v10 := by tauto
      have hp11 : ¬ e ≤ v11 := by tauto
      have hp01 : e ≤ v01 := by tauto
      simp [cellSegments, above, hp00, hp10, hp11, hp01,
        not_le.mp hp00, not_lt.mpr hp10, not_le.mp hp11, not_lt.mpr hp01]

/-- C3 witness: the cell parts instantiated — a uniform all-above cell at
level 0, the midpoint fallback, the linear interpolation, and a saddle cell
at level 1/2. -/
theorem C3_witness :
    cellSegments 0 0 1 1 1 1 0 = [] ∧
    interpolate 0 0 0 1 0 0 5 = ((0 + 1) / 2, (0 + 0) / 2) ∧
    interpolate 0 0 0 1 0 1 5 =
      (0 + (5 - 0) / (1 - 0) * (1 - 0), 0 + (5 - 0) / (1 - 0) * (0 - 0)) ∧
    cellSegments 0 0 1 0 1 0 (1 / 2) =
      (if (1 : ℚ) / 2 ≤ (1 + 0 + 1 + 0) / 4 then
        [(interpolate 0 0 1 (0 + 1) 0 0 (1 / 2),
          interpolate 0 (0 + 1) 0 0 0 1 (1 / 2)),
         (interpolate (0 + 1) (0 + 1) 1 0 (0 + 1) 0 (1 / 2),
          interpolate (0 + 1) 0 0 (0 + 1) (0 + 1) 1 (1 / 2))]
      else
        [(interpolate 0 0 1 (0 + 1) 0 0 (1 / 2),
          interpolate (0 + 1) 0 0 (0 + 1) (0 + 1) 1 (1 / 2)),
         (interpolate (0 + 1) (0 + 1) 1 0 (0 + 1) 0 (1 / 2),
          interpolate 0 (0 + 1) 0 0 0 1 (1 / 2))]) :=
  ⟨(C3_marching_squares_cell 0 0 1 1 1 1 0).1
      (Or.inl (by norm_num)),
   (C3_marching_squares_cell 0 0 0 0 0 0 5).2.2.1 0 0 0 1 0 0
      (by norm_num [interpEps]),
   (C3_marching_squares_cell 0 0 0 0 0 0 5).2.2.2.1 0 0 0 1 0 1
      (by norm_num [interpEps]),
   (C3_marching_squares_cell 0 0 1 0 1 0 (1 / 2)).2.2.2.2
      (by simp only [above, ne_eq, decide_eq_decide]; norm_num)
      (by simp only [above, ne_eq, decide_eq_decide]; norm_num)
      (by simp only [above, ne_eq, decide_eq_decide]; norm_num)
      (by simp only [above, ne_eq, decide_eq_decide]; norm_num)⟩

/-- C5: the LOD controller's hysteresis: a poll whose computed target zoom
differs from the active zoom by at most 1 level leaves the state (active
zoom and transition flag) unchanged, and therefore any sequence of such
polls leaves it unchanged. -/
theorem C5_lod_hysteresis (s : LODState) :
    (∀ d : ℚ, |targetZoomOfDist d - s.zoom| ≤ 1 → lodStep s d = s) ∧
    (∀ ds : List ℚ, (∀ d ∈ ds, |targetZoomOfDist d - s.zoom| ≤ 1) →
      ds.foldl lodStep s = s) := by
  have hstep : ∀ d : ℚ, |targetZoomOfDist d - s.zoom| ≤ 1 → lodStep s d = s := by
    intro d hd
    have hnot : ¬ (2 ≤ |targetZoomOfDist d - s.zoom|) := by
      intro hc
      rcases abs_le.mp hd with ⟨hl, hr⟩
      rcases le_abs.mp hc with hc2 | hc2 <;> omega
    unfold lodStep
    rw [if_neg hnot]
  refine ⟨hstep, ?_⟩
  intro ds
  induction ds with
  | nil => intro _; rfl
  | cons a t ih =>
      intro h
      simp only [List.foldl_cons]
      rw [hstep a (h a (by simp))]
      exact ih fun d hd => h d (by simp [hd])

/-- C5 witness: from an active zoom of 15, three polls at distances 500 m,
2500 m and 1500 m (target zooms 15, 14, 15 — each within 1 level) leave the
state unchanged. -/
theorem C5_witness :
    List.foldl lodStep lodS [500, 2500, 1500] = lodS :=
  (C5_lod_hysteresis lodS).2 [500, 2500, 1500] (by decide)

/-- C4: during one composite operation, every combination of per-tile
outcomes yields a full tile-aligned grid (a single tile failure never fails
the composite); the slot of a failed tile reads back the canvas's blank
zero pixels, decoding to -32768, and the slot of a loaded tile reads back
that tile's own pixels. -/
theorem C4_tile_failure_tolerated :
    (∀ (tilesX tilesY : ℕ) (outcome : ℕ → ℕ → TileOutcome),
      fetchTerrainTileModel true tilesX tilesY outcome =
        some { width := tilesX * 256
               height := tilesY * 256
               data := compositeElevation outcome (tilesX * 256)
               minHeight := (gridMinMax (tilesX * 256 * (tilesY * 256))
                 (compositeElevation outcome (tilesX * 256))).1
               maxHeight := (gridMinMax (tilesX * 256 * (tilesY * 256))
                 (compositeElevation outcome (tilesX * 256))).2 }) ∧
    decode 0 0 0 = -32768 ∧
    (∀ (tilesX : ℕ) (outcome : ℕ → ℕ → TileOutcome) (tx ty lx ly : ℕ),
      tx < tilesX → lx < 256 → ly < 256 → outcome tx ty = none →
      compositeElevation outcome (tilesX * 256)
        ((ty * 256 + ly) * (tilesX * 256) + (tx * 256 + lx)) = decode 0 0 0) ∧
    (∀ (tilesX : ℕ) (outcome : ℕ → ℕ → TileOutcome) (tx ty lx ly : ℕ)
       (img : ℕ → ℕ → Pixel),
      tx < tilesX → lx < 256 → ly < 256 → outcome tx ty = some img →
      compositeElevation outcome (tilesX * 256)
        ((ty * 256 + ly) * (tilesX * 256) + (tx * 256 + lx)) =
        decode (img lx ly).r (img lx ly).g (img lx ly).b) := by
  have key : ∀ (tilesX : ℕ) (outcome : ℕ → ℕ → TileOutcome) (tx ty lx ly : ℕ),
      tx < tilesX → lx < 256 → ly < 256 →
      compositeElevation outcome (tilesX * 256)
          ((ty * 256 + ly) * (tilesX * 256) + (tx * 256 + lx)) =
        decode (compositePixel outcome (tx * 256 + lx) (ty * 256 + ly)).r
          (compositePixel outcome (tx * 256 + lx) (ty * 256 + ly)).g
          (compositePixel outcome (tx * 256 + lx) (ty * 256 + ly)).b := by
    intro tilesX outcome tx ty lx ly htx hlx hly
    have hw : 0 < tilesX * 256 := by omega
    have ha : tx * 256 + lx < tilesX * 256 := by omega
    have hmod : ((ty * 256 + ly) * (tilesX * 256) + (tx * 256 + lx)) % (tilesX * 256)
        = tx * 256 + lx := by
      rw [Nat.add_comm, Nat.add_mul_mod_self_right, Nat.mod_eq_of_lt ha]
    have hdiv : ((ty * 256 + ly) * (tilesX * 256) + (tx * 256 + lx)) / (tilesX * 256)
        = ty * 256 + ly := by
      rw [Nat.add_comm, Nat.add_mul_div_right _ _ hw, Nat.div_eq_of_lt ha, Nat.zero_add]
    simp only [compositeElevation, hmod, hdiv]
  refine ⟨?_, by norm_num [decode], ?_, ?_⟩
  · intro tilesX tilesY outcome
    simp [fetchTerrainTileModel]
  · intro tilesX outcome tx ty lx ly htx hlx hly hout
    rw [key tilesX outcome tx ty lx ly htx hlx hly]
    have h1 : (tx * 256 + lx) / 256 = tx := by omega
    have h3 : (ty * 256 + ly) / 256 = ty := by omega
    simp only [compositePixel, h1, h3, hout]
  · intro tilesX outcome tx ty lx ly img htx hlx hly hout
    rw [key tilesX outcome tx ty lx ly htx hlx hly]
    have h1 : (tx * 256 + lx) / 256 = tx := by omega
    have h2 : (tx * 256 + lx) % 256 = lx := by omega
    have h3 : (ty * 256 + ly) / 256 = ty := by omega
    have h4 : (ty * 256 + ly) % 256 = ly := by omega
    simp only [compositePixel, h1, h2, h3, h4, hout]

/-- C4 witness: a 1x1 composite whose only tile failed decodes its slot to
the blank -32768 value; one whose only tile loaded decodes its own pixel. -/
theorem C4_witness :
    compositeElevation (fun _ _ => none) (1 * 256)
      ((0 * 256 + 0) * (1 * 256) + (0 * 256 + 0)) = decode 0 0 0 ∧
    compositeElevation (fun _ _ => some fun _ _ => { r := 1, g := 2, b := 3 })
      (1 * 256) ((0 * 256 + 0) * (1 * 256) + (0 * 256 + 0)) = decode 1 2 3 :=
  ⟨C4_tile_failure_tolerated.2.2.1 1 (fun _ _ => none) 0 0 0 0
      (by decide) (by decide) (by decide) rfl,
   C4_tile_failure_tolerated.2.2.2 1
      (fun _ _ => some fun _ _ => { r := 1, g := 2, b := 3 }) 0 0 0 0
      (fun _ _ => { r := 1, g := 2, b := 3 })
      (by decide) (by decide) (by decide) rfl⟩

/-- A `scanStep` call yields `none` exactly when the accumulator was `none` and the
sample is not inside the ellipse. -/
theorem scanStep_eq_none_iff (width height : ℕ) (d : ℕ → ℚ)
    (acc : Option (ℚ × ℚ)) (i : ℕ) :
    scanStep width height d acc i = none ↔
      acc = none ∧ inEllipse width height i = false := by
  cases acc <;> cases hv : inEllipse width height i <;> simp [scanStep, hv]

/-- The scan is `none` iff it started from `none` and saw no visible sample. -/
theorem scan_foldl_eq_none_iff (width height : ℕ) (d : ℕ → ℚ) :
    ∀ (l : List ℕ) (acc : Option (ℚ × ℚ)),
      l.foldl (scanStep width height d) acc = none ↔
        acc = none ∧ ∀ i ∈ l, inEllipse width height i = false := by
  intro l
  induction l with
  | nil => intro acc; simp
  | cons a t ih =>
      intro acc
      rw [List.foldl_cons, ih (scanStep width height d acc a),
        scanStep_eq_none_iff]
      constructor
      · rintro ⟨⟨h1, h2⟩, h3⟩
        exact ⟨h1, List.forall_mem_cons.mpr ⟨h2, h3⟩⟩
      · rintro ⟨h1, h2⟩
        exact ⟨⟨h1, h2 a (by simp)⟩, fun i hi => h2 i (by simp [hi])⟩

/-- Invariant of the min/max accumulation started from a `some` accumulator:
the running pair only widens, bounds every visible sample of the scanned
list, and each side is the seed or an attained sample value. -/
theorem scan_foldl_some_invariant (width height : ℕ) (d : ℕ → ℚ) :
    ∀ (l : List ℕ) (mn0 mx0 mn mx : ℚ),
      l.foldl (scanStep width height d) (some (mn0, mx0)) = some (mn, mx) →
      (mn ≤ mn0 ∧ mx0 ≤ mx) ∧
      (∀ i ∈ l, inEllipse width height i = true → mn ≤ d i ∧ d i ≤ mx) ∧
      (mn = mn0 ∨ ∃ i ∈ l, inEllipse width height i = true ∧ d i = mn) ∧
      (mx = mx0 ∨ ∃ i ∈ l, inEllipse width height i = true ∧ d i = mx) := by
  intro l
  induction l with
  | nil =>
      intro mn0 mx0 mn mx h
      simp only [List.foldl_nil, Option.some.injEq, Prod.mk.injEq] at h
      obtain ⟨h1, h2⟩ := h
      subst h1; subst h2
      exact ⟨⟨le_refl _, le_refl _⟩, by simp, Or.inl rfl, Or.inl rfl⟩
  | cons a t ih =>
      intro mn0 mx0 mn mx h
      rw [List.foldl_cons] at h
      by_cases hv : inEllipse width height a = true
      · rw [show scanStep width height d (some (mn0, mx0)) a
            = some (min mn0 (d a), max mx0 (d a)) from by simp [scanStep, hv]] at h
        obtain ⟨⟨hmn, hmx⟩, hb, hat1, hat2⟩ := ih (min mn0 (d a)) (max mx0 (d a)) mn mx h
        refine ⟨⟨le_trans hmn (min_le_left _ _), le_trans (le_max_left _ _) hmx⟩,
          ?_, ?_, ?_⟩
        · intro i hi hvi
          rcases List.mem_cons.mp hi with rfl | hit
          · exact ⟨le_trans hmn (min_le_right _ _), le_trans (le_max_right _ _) hmx⟩
          · exact hb i hit hvi
        · rcases hat1 with heq | ⟨i, hit, hvi, hdi⟩
          · rcases min_choice mn0 (d a) with hc | hc
            · exact Or.inl (heq.trans hc)
            · exact Or.inr ⟨a, by simp, hv, (heq.trans hc).symm⟩
          · exact Or.inr ⟨i, by simp [hit], hvi, hdi⟩
        · rcases hat2 with heq | ⟨i, hit, hvi, hdi⟩
          · rcases max_choice mx0 (d a) with hc | hc
            · exact Or.inl (heq.trans hc)
            · exact Or.inr ⟨a, by simp, hv, (heq.trans hc).symm⟩
          · exact Or.inr ⟨i, by simp [hit], hvi, hdi⟩
      · rw [show scanStep width height d (some (mn0, mx0)) a = some (mn0, mx0)
            from by simp [scanStep, hv]] at h
        obtain ⟨hmono, hb, hat1, hat2⟩ := ih mn0 mx0 mn mx h
        refine ⟨hmono, ?_, ?_, ?_⟩
        · intro i hi hvi
          rcases List.mem_cons.mp hi with rfl | hit
          · exact absurd hvi hv
          · exact hb i hit hvi
        · rcases hat1 with heq | ⟨i, hit, hvi, hdi⟩
          · exact Or.inl heq
          · exact Or.inr ⟨i, by simp [hit], hvi, hdi⟩
        · rcases hat2 with heq | ⟨i, hit, hvi, hdi⟩
          · exact Or.inl heq
          · exact Or.inr ⟨i, by simp [hit], hvi, hdi⟩

/-- The scan started from `none`: when it produces `some (mn, mx)`, the pair
bounds every visible sample and both components are attained. -/
theorem scan_foldl_none_start (width height : ℕ) (d : ℕ → ℚ) :
    ∀ (l : List ℕ) (mn mx : ℚ),
      l.foldl (scanStep width height d) none = some (mn, mx) →
      (∀ i ∈ l, inEllipse width height i = true → mn ≤ d i ∧ d i ≤ mx) ∧
      (∃ i ∈ l, inEllipse width height i = true ∧ d i = mn) ∧
      (∃ i ∈ l, inEllipse width height i = true ∧ d i = mx) := by
  intro l
  induction l with
  | nil => intro mn mx h; simp at h
  | cons a t ih =>
      intro mn mx h
      rw [List.foldl_cons] at h
      by_cases hv : inEllipse width height a = true
      · rw [show scanStep width height d none a = some (d a, d a)
            from by simp [scanStep, hv]] at h
        obtain ⟨⟨hmn, hmx⟩, hb, hat1, hat2⟩ :=
          scan_foldl_some_invariant width height d t (d a) (d a) mn mx h
        refine ⟨?_, ?_, ?_⟩
        · intro i hi hvi
          rcases List.mem_cons.mp hi with rfl | hit
          · exact ⟨hmn, hmx⟩
          · exact hb i hit hvi
        · rcases hat1 with heq | ⟨i, hit, hvi, hdi⟩
          · exact ⟨a, by simp, hv, heq.symm⟩
          · exact ⟨i, by simp [hit], hvi, hdi⟩
        · rcases hat2 with heq | ⟨i, hit, hvi, hdi⟩
          · exact ⟨a, by simp, hv, heq.symm⟩
          · exact ⟨i, by simp [hit], hvi, hdi⟩
      · rw [show scanStep width height d none a = none
            from by simp [scanStep, hv]] at h
        obtain ⟨hb, hat1, hat2⟩ := ih mn mx h
        refine ⟨?_, ?_, ?_⟩
        · intro i hi hvi
          rcases List.mem_cons.mp hi with rfl | hit
          · exact absurd hvi hv
          · exact hb i hit hvi
        · obtain ⟨i, hit, hvi, hdi⟩ := hat1
          exact ⟨i, by simp [hit], hvi, hdi⟩
        · obtain ⟨i, hit, hvi, hdi⟩ := hat2
          exact ⟨i, by simp [hit], hvi, hdi⟩

/-- C6: for the rectangle footprint the visible height range is the grid's
full `minHeight`/`maxHeight`; for the ellipse footprint (whenever at least
one sample is inside the ellipse) it is exactly the minimum and maximum of
the grid values restricted to the samples inside the ellipse. -/
theorem C6_visible_range (g : ElevationGrid) :
    visibleRange g Shape.rectangle = (g.minHeight, g.maxHeight) ∧
    (∀ i0, i0 < g.width * g.height → inEllipse g.width g.height i0 = true →
      IsVisibleMinMax g (visibleRange g Shape.ellipse).1
        (visibleRange g Shape.ellipse).2) := by
  refine ⟨rfl, ?_⟩
  intro i0 hi0 hvis
  have hne : scanVisible g ≠ none := by
    rw [scanVisible]
    intro hcon
    rw [scan_foldl_eq_none_iff] at hcon
    exact absurd (hcon.2 i0 (List.mem_range.mpr hi0)) (by simp [hvis])
  obtain ⟨⟨mn, mx⟩, hmm⟩ := Option.ne_none_iff_exists.mp hne
  have hvr : visibleRange g Shape.ellipse = (mn, mx) := by
    simp [visibleRange, ← hmm]
  rw [hvr]
  have hfold : (List.range (g.width * g.height)).foldl
      (scanStep g.width g.height g.data) none = some (mn, mx) := by
    rw [← scanVisible]
    exact hmm.symm
  have hspec := scan_foldl_none_start g.width g.height g.data
    (List.range (g.width * g.height)) mn mx hfold
  refine ⟨?_, ?_, ?_⟩
  · intro i hi hvi
    exact hspec.1 i (List.mem_range.mpr hi) hvi
  · obtain ⟨i, hit, hvi, hdi⟩ := hspec.2.1
    exact ⟨i, List.mem_range.mp hit, hvi, hdi⟩
  · obtain ⟨i, hit, hvi, hdi⟩ := hspec.2.2
    exact ⟨i, List.mem_range.mp hit, hvi, hdi⟩

/-- C6 witness: the 3x3 index grid has sample 4 inside the ellipse, and its
ellipse-visible range is characterized as the restricted min/max. -/
theorem C6_witness :
    (4 < g3.width * g3.height ∧ inEllipse g3.width g3.height 4 = true) ∧
    IsVisibleMinMax g3 (visibleRange g3 Shape.ellipse).1
      (visibleRange g3 Shape.ellipse).2 :=
  ⟨⟨by norm_num [g3], by norm_num [inEllipse, g3]⟩,
   (C6_visible_range g3).2 4 (by norm_num [g3]) (by norm_num [inEllipse, g3])⟩

/-- C10: when no grid sample lies inside the ellipse, the visible height
range falls back to the grid's full `minHeight`/`maxHeight`. -/
theorem C10_ellipse_scan_fallback (g : ElevationGrid) :
    (∀ i, i < g.width * g.height → inEllipse g.width g.height i = false) →
    visibleRange g Shape.ellipse = (g.minHeight, g.maxHeight) := by
  intro h
  have hnone : scanVisible g = none := by
    rw [scanVisible, scan_foldl_eq_none_iff]
    exact ⟨rfl, fun i hi => h i (List.mem_range.mp hi)⟩
  simp [visibleRange, hnone]

/-- C10 witness: the degenerate 1x1 grid (all normalized coordinates are NaN
in the source, so nothing is visible) falls back to the full range. -/
theorem C10_witness :
    visibleRange g1 Shape.ellipse = (g1.minHeight, g1.maxHeight) := by
  apply C10_ellipse_scan_fallback g1
  intro i hi
  have h1 : i = 0 := by
    have : g1.width * g1.height = 1 := by norm_num [g1]
    omega
  subst h1
  norm_num [inEllipse, g1]

/-- C7 at the failing input: for the 2x2 grid with values [-5, -3, 0, 2],
minHeight -5 and exaggeration 100, the code's vertex height at index 2 is 0,
not the (rawHeight - minHeight) * (E/100) = 5 the claim demands: the
JavaScript `sampledData[i] || minHeight` fallback treats the legitimate
elevation 0 as missing and replaces it by minHeight.  Consequently the
heights are not monotonic along the increasing grid values
`data 1 < data 2`.  Doubling the exaggeration does still double every
vertex height, and `vertexCount`/`topIndices` take no exaggeration argument
at all, so count and triangulation never depend on it. -/
theorem C7_exaggeration_falsy_zero :
    vertexHeight gBug 100 1 = 2 ∧
    vertexHeight gBug 100 2 = 0 ∧
    gBug.data 1 < gBug.data 2 ∧
    (gBug.data 2 - gBug.minHeight) * (100 / 100) = 5 ∧
    (∀ (g : ElevationGrid) (e : ℚ) (i : ℕ),
      vertexHeight g (2 * e) i = 2 * vertexHeight g e i) := by
  refine ⟨?_, ?_, ?_, ?_, ?_⟩
  · norm_num [vertexHeight, sampledData, jsOr, gBug, MAX_GEOMETRY_RES, min_def]
  · norm_num [vertexHeight, sampledData, jsOr, gBug, MAX_GEOMETRY_RES, min_def]
  · norm_num [gBug]
  · norm_num [gBug]
  · intro g e i
    simp only [vertexHeight]
    ring

/-- C9: the skirt sampler's clamp keeps every coordinate in
`[0, max]`, hence for every query point `(x, y)` — also on or outside the
plan-unit square — all four corner lookups of the bilinear `getHeight`
sampler are flat indices inside `[0, width*height)`: the sampler is total. -/
theorem C9_skirt_sampler_clamped (width height : ℕ) (x y : ℚ)
    (hw : 1 ≤ width) (hh : 1 ≤ height) :
    (∀ v m : ℤ, 0 ≤ m → 0 ≤ clampIdx v m ∧ clampIdx v m ≤ m) ∧
    (∀ cX cY : ℤ,
      0 ≤ skirtIdx width height cX cY ∧
      (skirtIdx width height cX cY).toNat < width * height) ∧
    ((skirtIdx width height (skirtGX width x).floor
        (skirtGY height y).floor).toNat < width * height ∧
     (skirtIdx width height ((skirtGX width x).floor + 1)
        (skirtGY height y).floor).toNat < width * height ∧
     (skirtIdx width height (skirtGX width x).floor
        ((skirtGY height y).floor + 1)).toNat < width * height ∧
     (skirtIdx width height ((skirtGX width x).floor + 1)
        ((skirtGY height y).floor + 1)).toNat < width * height) := by
  have hclamp : ∀ v m : ℤ, 0 ≤ m → 0 ≤ clampIdx v m ∧ clampIdx v m ≤ m := by
    intro v m hm
    exact ⟨le_max_left 0 _, max_le hm (min_le_left _ _)⟩
  have hwZ : (0 : ℤ) ≤ (width : ℤ) - 1 := by
    have : (1 : ℤ) ≤ (width : ℤ) := by exact_mod_cast hw
    omega
  have hhZ : (0 : ℤ) ≤ (height : ℤ) - 1 := by
    have : (1 : ℤ) ≤ (height : ℤ) := by exact_mod_cast hh
    omega
  have hidx : ∀ cX cY : ℤ,
      0 ≤ skirtIdx width height cX cY ∧
      (skirtIdx width height cX cY).toNat < width * height := by
    intro cX cY
    obtain ⟨ha0, ha1⟩ := hclamp cY ((height : ℤ) - 1) hhZ
    obtain ⟨hb0, hb1⟩ := hclamp cX ((width : ℤ) - 1) hwZ
    have hwpos : (0 : ℤ) ≤ (width : ℤ) := by positivity
    have hge : 0 ≤ skirtIdx width height cX cY :=
      add_nonneg (mul_nonneg ha0 hwpos) hb0
    have hmul : clampIdx cY ((height : ℤ) - 1) * (width : ℤ) ≤
        ((height : ℤ) - 1) * (width : ℤ) :=
      mul_le_mul_of_nonneg_right ha1 hwpos
    have hlt : skirtIdx width height cX cY < ((width * height : ℕ) : ℤ) := by
      unfold skirtIdx
      push_cast
      nlinarith [hmul, hb1]
    have hne : width * height ≠ 0 := by positivity
    exact ⟨hge, (Int.toNat_lt' hne).mpr hlt⟩
  refine ⟨hclamp, hidx, ?_, ?_, ?_, ?_⟩
  · exact (hidx _ _).2
  · exact (hidx _ _).2
  · exact (hidx _ _).2
  · exact (hidx _ _).2

/-- C9 witness: on a 2x2 grid at the far outside query point (1000, 1000)
all four corner indices are in range. -/
theorem C9_witness :
    (skirtIdx 2 2 (skirtGX 2 1000).floor (skirtGY 2 1000).floor).toNat < 2 * 2 ∧
    (skirtIdx 2 2 ((skirtGX 2 1000).floor + 1)
      (skirtGY 2 1000).floor).toNat < 2 * 2 ∧
    (skirtIdx 2 2 (skirtGX 2 1000).floor
      ((skirtGY 2 1000).floor + 1)).toNat < 2 * 2 ∧
    (skirtIdx 2 2 ((skirtGX 2 1000).floor + 1)
      ((skirtGY 2 1000).floor + 1)).toNat < 2 * 2 :=
  (C9_skirt_sampler_clamped 2 2 1000 1000 (by norm_num) (by norm_num)).2.2
